import Mathlib

set_option maxRecDepth 8000

/-! Shallow embedding of `src/card_fuzzer.py` (class `SmartCardFuzzer`).

The card transceiver is modelled as a function from the transmitted
four-byte APDU header to the transmission result: either a response
(data bytes plus the two status words) or a raised exception.  Each
Python generator is modelled as a function returning a `Run`: the list
of transmitted commands (in transmission order), the list of yielded
values (in yield order), and the exception, if any, that escaped the
generator and ended the run.  Yields delivered before an escaping
exception are kept, matching Python generator semantics.

Two runtime name errors of the source are modelled explicitly:
- `_instruction_fuzzer` line 131 executes `yield from self.param_fuzzer(...)`,
  but the class only defines `_param_fuzzer`, so the attribute lookup
  raises `AttributeError` (modelled as `PyErr.attributeError`);
- `_param_fuzzer` line 150 executes `yield (_class, ins, p1, p2)` where
  `ins` is an undefined name, so the first `SUCCES`-classified probe of a
  parameter sweep raises `NameError` (modelled as `PyErr.nameError`). -/

/-- An APDU header `[_class, instruction, p1, p2]` as built by `__send_apdu`. -/
structure Apdu where
  cla : Nat
  ins : Nat
  p1 : Nat
  p2 : Nat
deriving DecidableEq

/-- Exceptions the transceiver (`connection.transmit`) may raise:
`SWException` (caught separately in `_class_fuzzer`) or any other exception. -/
inductive PyExc
  | swException
  | otherException
deriving DecidableEq

/-- An exception escaping a generator: a propagated transmission error, the
`AttributeError` from the `self.param_fuzzer` lookup, or the `NameError`
from the undefined `ins` in `_param_fuzzer`. -/
inductive PyErr
  | transmit (e : PyExc)
  | attributeError
  | nameError
deriving DecidableEq

/-- Result of one `connection.transmit(apdu)` call: `response, sw1, sw2`
returned, or an exception raised. -/
inductive TResult
  | ok (data : List Nat) (sw1 sw2 : Nat)
  | exn (e : PyExc)
deriving DecidableEq

/-- The card model: a deterministic transceiver mapping each transmitted
APDU header to its transmission result. -/
def Card : Type := Apdu → TResult

/-- The `SmartCardFuzzer.Status` constants. -/
inductive Status
  | succes
  | failed
  | paramFail
deriving DecidableEq

/-- `BAD_INSTRUCTIONS` (line 16). -/
def BAD_INSTRUCTIONS : List Nat := [0x20, 0x24]

/-- `SUCCESS_LIST_RESP` (lines 17-23). -/
def SUCCESS_LIST_RESP : List Nat := [0x90, 0x61, 0x67, 0x6c, 0x6a]

/-- `SUCCESS_BAD_PARAM_RESP` (line 24). -/
def SUCCESS_BAD_PARAM_RESP : List (Nat × Nat) := [(0x6a, 0x86)]

/-- `SUCCESS_FAIL_RESP` (line 25). -/
def SUCCESS_FAIL_RESP : List (Nat × Nat) := [(0x6a, 0x81)]

/-- `UNSUPPORTED_RESP` (line 26). -/
def UNSUPPORTED_RESP : List (Nat × Nat) := [(0x6E, 0x00)]

/-- `__get_succes(sw1, sw2)` (lines 65-87). -/
def get_succes (sw1 sw2 : Nat) : Status :=
  if sw1 ∈ SUCCESS_LIST_RESP ∧ (sw1, sw2) ∉ SUCCESS_FAIL_RESP
      ∧ (sw1, sw2) ∉ SUCCESS_BAD_PARAM_RESP then
    Status.succes
  else if (sw1, sw2) ∈ SUCCESS_BAD_PARAM_RESP then
    Status.paramFail
  else
    Status.failed

/-- Observable behaviour of one generator run: transmitted commands, yielded
values, and the exception (if any) that ended the run. -/
structure Run (α : Type) where
  trace : List Apdu
  yields : List α
  err : Option PyErr
deriving DecidableEq

/-- The status-word pair the class sweep works with for candidate `c`
(lines 97-104): the default `UNSUPPORTED_RESP[0]` kept when the
transmission raises (both `except` arms only log), else the returned pair. -/
def classProbeSW (card : Card) (c : Nat) : Nat × Nat :=
  match card ⟨c, 0x00, 0x00, 0x00⟩ with
  | TResult.ok _ sw1 sw2 => (sw1, sw2)
  | TResult.exn _ => UNSUPPORTED_RESP.getD 0 (0, 0)

/-- Loop body of `_class_fuzzer` (lines 96-108) over the remaining
candidate classes. -/
def class_fuzzer_loop (card : Card) : List Nat → Run Nat
  | [] => ⟨[], [], none⟩
  | c :: rest =>
    let r := class_fuzzer_loop card rest
    if classProbeSW card c ∉ UNSUPPORTED_RESP then
      ⟨⟨c, 0x00, 0x00, 0x00⟩ :: r.trace, c :: r.yields, r.err⟩
    else
      ⟨⟨c, 0x00, 0x00, 0x00⟩ :: r.trace, r.yields, r.err⟩

/-- `_class_fuzzer` (lines 89-108): `for _class in range(0xFF + 1)`. -/
def class_fuzzer (card : Card) : Run Nat :=
  class_fuzzer_loop card (List.range (0xFF + 1))

/-- Loop body of `_instruction_fuzzer` (lines 121-131) over the remaining
candidate instructions.  The transmission on line 126 is not guarded by any
`try`, so a raised exception escapes the generator; on `PARAM_FAIL` the
lookup `self.param_fuzzer` on line 131 raises `AttributeError` (the method
is named `_param_fuzzer`). -/
def instruction_fuzzer_loop (card : Card) (c : Nat) : List Nat → Run Apdu
  | [] => ⟨[], [], none⟩
  | i :: rest =>
    if i ∈ BAD_INSTRUCTIONS then
      instruction_fuzzer_loop card c rest
    else
      match card ⟨c, i, 0x00, 0x00⟩ with
      | TResult.exn e => ⟨[⟨c, i, 0x00, 0x00⟩], [], some (PyErr.transmit e)⟩
      | TResult.ok _ sw1 sw2 =>
        match get_succes sw1 sw2 with
        | Status.succes =>
          let r := instruction_fuzzer_loop card c rest
          ⟨⟨c, i, 0x00, 0x00⟩ :: r.trace, ⟨c, i, 0x00, 0x00⟩ :: r.yields, r.err⟩
        | Status.paramFail =>
          ⟨[⟨c, i, 0x00, 0x00⟩], [], some PyErr.attributeError⟩
        | Status.failed =>
          let r := instruction_fuzzer_loop card c rest
          ⟨⟨c, i, 0x00, 0x00⟩ :: r.trace, r.yields, r.err⟩

/-- `_instruction_fuzzer` (lines 110-131): `for instruction in range(0xFF + 1)`. -/
def instruction_fuzzer (card : Card) (c : Nat) : Run Apdu :=
  instruction_fuzzer_loop card c (List.range (0xFF + 1))

/-- The (p1, p2) pairs offered by the nested loops of `_param_fuzzer`
(lines 145-146), p1 outer and p2 inner, both ascending over `range(0xff + 1)`. -/
def allParamPairs : List (Nat × Nat) :=
  (List.range (0xff + 1)).flatMap fun p1 =>
    (List.range (0xff + 1)).map fun p2 => (p1, p2)

/-- Loop body of `_param_fuzzer` (lines 145-150) over the remaining
(p1, p2) pairs.  The transmission on line 147 is unguarded, and the yield
on line 150 references the undefined name `ins`, raising `NameError` on the
first `SUCCES` classification. -/
def param_fuzzer_loop (card : Card) (c i : Nat) : List (Nat × Nat) → Run Apdu
  | [] => ⟨[], [], none⟩
  | (p1, p2) :: rest =>
    match card ⟨c, i, p1, p2⟩ with
    | TResult.exn e => ⟨[⟨c, i, p1, p2⟩], [], some (PyErr.transmit e)⟩
    | TResult.ok _ sw1 sw2 =>
      match get_succes sw1 sw2 with
      | Status.succes => ⟨[⟨c, i, p1, p2⟩], [], some PyErr.nameError⟩
      | _ =>
        let r := param_fuzzer_loop card c i rest
        ⟨⟨c, i, p1, p2⟩ :: r.trace, r.yields, r.err⟩

/-- `_param_fuzzer` (lines 133-150). -/
def param_fuzzer (card : Card) (c i : Nat) : Run Apdu :=
  param_fuzzer_loop card c i allParamPairs

/-- `fuzz` (lines 152-162), with the lazy generator chain flattened: the
class probe for `c` happens, then (if `c` is recognized) the whole
instruction sweep for `c`, then the next class probe.  An exception escaping
the instruction sweep propagates through `fuzz` and ends the run; yields
already delivered stand. -/
def fuzz_loop (card : Card) : List Nat → Run Apdu
  | [] => ⟨[], [], none⟩
  | c :: rest =>
    if classProbeSW card c ∉ UNSUPPORTED_RESP then
      let ri := instruction_fuzzer card c
      match ri.err with
      | some e => ⟨⟨c, 0x00, 0x00, 0x00⟩ :: ri.trace, ri.yields, some e⟩
      | none =>
        let r := fuzz_loop card rest
        ⟨⟨c, 0x00, 0x00, 0x00⟩ :: (ri.trace ++ r.trace), ri.yields ++ r.yields, r.err⟩
    else
      let r := fuzz_loop card rest
      ⟨⟨c, 0x00, 0x00, 0x00⟩ :: r.trace, r.yields, r.err⟩

/-- `fuzz()` of the whole fuzzer. -/
def fuzz (card : Card) : Run Apdu :=
  fuzz_loop card (List.range (0xFF + 1))

/-- The classification outcome of the probe for a command: `none` when the
transmission raises, else `__get_succes` of the returned status words. -/
def probeOutcome (card : Card) (a : Apdu) : Option Status :=
  match card a with
  | TResult.ok _ sw1 sw2 => some (get_succes sw1 sw2)
  | TResult.exn _ => none

/-- The status-word view of a transmission result, discarding the data bytes. -/
def swView (r : TResult) : Except PyExc (Nat × Nat) :=
  match r with
  | TResult.ok _ sw1 sw2 => Except.ok (sw1, sw2)
  | TResult.exn e => Except.error e

/-- True when the zero-parameter probe for instruction `j` of class `c`
returns normally and is not classified `PARAM_FAIL` (so the instruction
sweep passes over it without raising). -/
def probePasses (card : Card) (c j : Nat) : Bool :=
  match card ⟨c, j, 0x00, 0x00⟩ with
  | TResult.exn _ => false
  | TResult.ok _ sw1 sw2 =>
    match get_succes sw1 sw2 with
    | Status.paramFail => false
    | _ => true

/-- Fatal error of construction: `CardRequestTimeoutException` from
`cardrequest.waitforcard()` when no card appears within the timeout. -/
inductive ConnectError
  | connectionTimeout
deriving DecidableEq

/-- The default `timeout=30` of `__init__` (line 28). -/
def DEFAULT_TIMEOUT : Nat := 30

/-- `__get_card` (lines 33-48): builds a card request with the configured
timeout and waits for a card; the reader model either yields a connected
card or raises the timeout, which propagates. -/
def get_card (reader : Nat → Except ConnectError Card) (timeout : Nat) :
    Except ConnectError Card :=
  reader timeout

/-- A constructed fuzzer: the configured timeout and the connected card. -/
structure SmartCardFuzzerState where
  timeout : Nat
  card : Card

/-- `__init__` (lines 28-31): construction stores the timeout and connects;
a timeout from `__get_card` propagates out of the constructor. -/
def fuzzerInit (reader : Nat → Except ConnectError Card) (timeout : Nat) :
    Except ConnectError SmartCardFuzzerState :=
  match get_card reader timeout with
  | Except.error e => Except.error e
  | Except.ok card => Except.ok ⟨timeout, card⟩

/-- `main` (lines 164-167) observed as (transmitted commands, fatal
connection error): when construction fails nothing was ever transmitted;
otherwise the transmissions are exactly the `fuzz()` trace. -/
def mainRun (reader : Nat → Except ConnectError Card) (timeout : Nat) :
    List Apdu × Option ConnectError :=
  match fuzzerInit reader timeout with
  | Except.error e => ([], some e)
  | Except.ok f => ((fuzz f.card).trace, none)

/-- Scenario B card: class 0x80 recognized (other classes answer the
unsupported marker), instruction 0x10 answers (0x6a, 0x86), and among its
parameters only (0x01, 0x02) answers (0x90, 0x00); all other probes of
class 0x80 answer (0x6a, 0x81). -/
def cardScenarioB : Card := fun a =>
  if a = ⟨0x80, 0x10, 0x01, 0x02⟩ then TResult.ok [] 0x90 0x00
  else if a.cla = 0x80 ∧ a.ins = 0x10 then TResult.ok [] 0x6a 0x86
  else if a.cla = 0x80 then TResult.ok [] 0x6a 0x81
  else TResult.ok [] 0x6E 0x00

/-- A card answering (0x90, 0x00), a plain success, to every probe. -/
def cardAllSucces : Card := fun _ => TResult.ok [] 0x90 0x00

/-- Scenario D card: the probe for instruction 0x05 of class 0x00 raises a
transmission error; every other probe answers (0x6a, 0x81), which is
classified `FAILED` but is not the unsupported-class marker. -/
def cardScenarioD : Card := fun a =>
  if a.cla = 0x00 ∧ a.ins = 0x05 then TResult.exn PyExc.otherException
  else TResult.ok [] 0x6a 0x81

/-- A card answering the unsupported-class marker to every probe. -/
def cardAllUnsupported : Card := fun _ => TResult.ok [] 0x6E 0x00

/-- The same transceiver behaviour as `cardAllUnsupported` on status words,
with different response data bytes. -/
def cardAllUnsupportedData : Card := fun _ => TResult.ok [0x01, 0x02] 0x6E 0x00

/-- A reader that never detects a card within the window. -/
def readerNoCard : Nat → Except ConnectError Card :=
  fun _ => Except.error ConnectError.connectionTimeout

/-! ### Step equations for the enumeration loops -/

lemma instr_step_bad (card : Card) (c i : Nat) (rest : List Nat)
    (hbad : i ∈ BAD_INSTRUCTIONS) :
    instruction_fuzzer_loop card c (i :: rest) = instruction_fuzzer_loop card c rest := by
  simp [instruction_fuzzer_loop, hbad]

lemma instr_step_exn (card : Card) (c i : Nat) (rest : List Nat) (e : PyExc)
    (hbad : i ∉ BAD_INSTRUCTIONS) (hcard : card ⟨c, i, 0x00, 0x00⟩ = TResult.exn e) :
    instruction_fuzzer_loop card c (i :: rest) =
      ⟨[⟨c, i, 0x00, 0x00⟩], [], some (PyErr.transmit e)⟩ := by
  simp [instruction_fuzzer_loop, hbad, hcard]

lemma instr_step_succes (card : Card) (c i : Nat) (rest : List Nat)
    (d : List Nat) (sw1 sw2 : Nat)
    (hbad : i ∉ BAD_INSTRUCTIONS) (hcard : card ⟨c, i, 0x00, 0x00⟩ = TResult.ok d sw1 sw2)
    (hs : get_succes sw1 sw2 = Status.succes) :
    instruction_fuzzer_loop card c (i :: rest) =
      ⟨⟨c, i, 0x00, 0x00⟩ :: (instruction_fuzzer_loop card c rest).trace,
        ⟨c, i, 0x00, 0x00⟩ :: (instruction_fuzzer_loop card c rest).yields,
        (instruction_fuzzer_loop card c rest).err⟩ := by
  simp [instruction_fuzzer_loop, hbad, hcard, hs]

lemma instr_step_paramFail (card : Card) (c i : Nat) (rest : List Nat)
    (d : List Nat) (sw1 sw2 : Nat)
    (hbad : i ∉ BAD_INSTRUCTIONS) (hcard : card ⟨c, i, 0x00, 0x00⟩ = TResult.ok d sw1 sw2)
    (hs : get_succes sw1 sw2 = Status.paramFail) :
    instruction_fuzzer_loop card c (i :: rest) =
      ⟨[⟨c, i, 0x00, 0x00⟩], [], some PyErr.attributeError⟩ := by
  simp [instruction_fuzzer_loop, hbad, hcard, hs]

lemma instr_step_failed (card : Card) (c i : Nat) (rest : List Nat)
    (d : List Nat) (sw1 sw2 : Nat)
    (hbad : i ∉ BAD_INSTRUCTIONS) (hcard : card ⟨c, i, 0x00, 0x00⟩ = TResult.ok d sw1 sw2)
    (hs : get_succes sw1 sw2 = Status.failed) :
    instruction_fuzzer_loop card c (i :: rest) =
      ⟨⟨c, i, 0x00, 0x00⟩ :: (instruction_fuzzer_loop card c rest).trace,
        (instruction_fuzzer_loop card c rest).yields,
        (instruction_fuzzer_loop card c rest).err⟩ := by
  simp [instruction_fuzzer_loop, hbad, hcard, hs]

lemma class_step_yes (card : Card) (c : Nat) (rest : List Nat)
    (h : classProbeSW card c ∉ UNSUPPORTED_RESP) :
    class_fuzzer_loop card (c :: rest) =
      ⟨⟨c, 0x00, 0x00, 0x00⟩ :: (class_fuzzer_loop card rest).trace,
        c :: (class_fuzzer_loop card rest).yields,
        (class_fuzzer_loop card rest).err⟩ := by
  simp [class_fuzzer_loop, h]

lemma class_step_no (card : Card) (c : Nat) (rest : List Nat)
    (h : classProbeSW card c ∈ UNSUPPORTED_RESP) :
    class_fuzzer_loop card (c :: rest) =
      ⟨⟨c, 0x00, 0x00, 0x00⟩ :: (class_fuzzer_loop card rest).trace,
        (class_fuzzer_loop card rest).yields,
        (class_fuzzer_loop card rest).err⟩ := by
  simp [class_fuzzer_loop, h]

lemma fuzz_step_skip (card : Card) (c : Nat) (rest : List Nat)
    (h : classProbeSW card c ∈ UNSUPPORTED_RESP) :
    fuzz_loop card (c :: rest) =
      ⟨⟨c, 0x00, 0x00, 0x00⟩ :: (fuzz_loop card rest).trace,
        (fuzz_loop card rest).yields,
        (fuzz_loop card rest).err⟩ := by
  simp [fuzz_loop, h]

lemma fuzz_step_err (card : Card) (c : Nat) (rest : List Nat) (e : PyErr)
    (h : classProbeSW card c ∉ UNSUPPORTED_RESP)
    (herr : (instruction_fuzzer card c).err = some e) :
    fuzz_loop card (c :: rest) =
      ⟨⟨c, 0x00, 0x00, 0x00⟩ :: (instruction_fuzzer card c).trace,
        (instruction_fuzzer card c).yields, some e⟩ := by
  simp [fuzz_loop, h, herr]

lemma fuzz_step_ok (card : Card) (c : Nat) (rest : List Nat)
    (h : classProbeSW card c ∉ UNSUPPORTED_RESP)
    (herr : (instruction_fuzzer card c).err = none) :
    fuzz_loop card (c :: rest) =
      ⟨⟨c, 0x00, 0x00, 0x00⟩ :: ((instruction_fuzzer card c).trace ++ (fuzz_loop card rest).trace),
        (instruction_fuzzer card c).yields ++ (fuzz_loop card rest).yields,
        (fuzz_loop card rest).err⟩ := by
  simp [fuzz_loop, h, herr]

/-! ### Loop invariants -/

lemma probePasses_iff (card : Card) (c j : Nat) :
    probePasses card c j = true ↔
      ∃ d sw1 sw2, card ⟨c, j, 0x00, 0x00⟩ = TResult.ok d sw1 sw2 ∧
        get_succes sw1 sw2 ≠ Status.paramFail := by
  unfold probePasses
  rcases hcard : card ⟨c, j, 0x00, 0x00⟩ with ⟨d, sw1, sw2⟩ | e
  · constructor
    · intro h
      refine ⟨d, sw1, sw2, rfl, ?_⟩
      intro hs
      simp [hs] at h
    · rintro ⟨d2, s1, s2, heq, hne⟩
      obtain ⟨rfl, rfl, rfl⟩ : d = d2 ∧ sw1 = s1 ∧ sw2 = s2 := by
        simpa using heq
      rcases hs : get_succes sw1 sw2
      · simp [hs]
      · simp [hs]
      · exact absurd hs hne
  · simp

lemma instruction_fuzzer_loop_append (card : Card) (c : Nat) (l2 l1 : List Nat) :
    instruction_fuzzer_loop card c (l1 ++ l2) =
      if (instruction_fuzzer_loop card c l1).err = none then
        ⟨(instruction_fuzzer_loop card c l1).trace ++ (instruction_fuzzer_loop card c l2).trace,
          (instruction_fuzzer_loop card c l1).yields ++ (instruction_fuzzer_loop card c l2).yields,
          (instruction_fuzzer_loop card c l2).err⟩
      else instruction_fuzzer_loop card c l1 := by
  induction l1 with
  | nil => simp [instruction_fuzzer_loop]
  | cons i rest ih =>
    rw [List.cons_append]
    by_cases hbad : i ∈ BAD_INSTRUCTIONS
    · rw [instr_step_bad card c i _ hbad, instr_step_bad card c i rest hbad, ih]
    · rcases hcard : card ⟨c, i, 0x00, 0x00⟩ with ⟨d, sw1, sw2⟩ | e
      · rcases hs : get_succes sw1 sw2
        · rw [instr_step_succes card c i _ d sw1 sw2 hbad hcard hs,
            instr_step_succes card c i rest d sw1 sw2 hbad hcard hs, ih]
          by_cases herr : (instruction_fuzzer_loop card c rest).err = none <;>
            simp [herr]
        · rw [instr_step_failed card c i _ d sw1 sw2 hbad hcard hs,
            instr_step_failed card c i rest d sw1 sw2 hbad hcard hs, ih]
          by_cases herr : (instruction_fuzzer_loop card c rest).err = none <;>
            simp [herr]
        · rw [instr_step_paramFail card c i _ d sw1 sw2 hbad hcard hs,
            instr_step_paramFail card c i rest d sw1 sw2 hbad hcard hs]
          simp
      · rw [instr_step_exn card c i _ e hbad hcard, instr_step_exn card c i rest e hbad hcard]
        simp

lemma instruction_fuzzer_loop_trace_shape (card : Card) (c : Nat) (l : List Nat) :
    ∀ a ∈ (instruction_fuzzer_loop card c l).trace,
      ∃ j ∈ l, j ∉ BAD_INSTRUCTIONS ∧ a = ⟨c, j, 0x00, 0x00⟩ := by
  induction l with
  | nil => simp [instruction_fuzzer_loop]
  | cons i rest ih =>
    have push : ∀ a ∈ (instruction_fuzzer_loop card c rest).trace,
        ∃ j ∈ i :: rest, j ∉ BAD_INSTRUCTIONS ∧ a = ⟨c, j, 0x00, 0x00⟩ := by
      intro a ha
      obtain ⟨j, hj, hjb, rfl⟩ := ih a ha
      exact ⟨j, List.mem_cons_of_mem _ hj, hjb, rfl⟩
    by_cases hbad : i ∈ BAD_INSTRUCTIONS
    · rw [instr_step_bad card c i rest hbad]
      exact push
    · have self : ∃ j ∈ i :: rest, j ∉ BAD_INSTRUCTIONS ∧
          (⟨c, i, 0x00, 0x00⟩ : Apdu) = ⟨c, j, 0x00, 0x00⟩ :=
        ⟨i, List.mem_cons_self i rest, hbad, rfl⟩
      rcases hcard : card ⟨c, i, 0x00, 0x00⟩ with ⟨d, sw1, sw2⟩ | e
      · rcases hs : get_succes sw1 sw2
        · rw [instr_step_succes card c i rest d sw1 sw2 hbad hcard hs]
          intro a ha
          rcases List.mem_cons.mp ha with rfl | ha2
          · exact self
          · exact push a ha2
        · rw [instr_step_failed card c i rest d sw1 sw2 hbad hcard hs]
          intro a ha
          rcases List.mem_cons.mp ha with rfl | ha2
          · exact self
          · exact push a ha2
        · rw [instr_step_paramFail card c i rest d sw1 sw2 hbad hcard hs]
          intro a ha
          rcases List.mem_singleton.mp ha with rfl
          exact self
      · rw [instr_step_exn card c i rest e hbad hcard]
        intro a ha
        rcases List.mem_singleton.mp ha with rfl
        exact self

lemma instruction_fuzzer_loop_err_none (card : Card) (c : Nat) (l : List Nat)
    (h : ∀ j ∈ l, j ∉ BAD_INSTRUCTIONS → probePasses card c j = true) :
    (instruction_fuzzer_loop card c l).err = none := by
  induction l with
  | nil => simp [instruction_fuzzer_loop]
  | cons i rest ih =>
    have hrest : ∀ j ∈ rest, j ∉ BAD_INSTRUCTIONS → probePasses card c j = true :=
      fun j hj => h j (List.mem_cons_of_mem _ hj)
    by_cases hbad : i ∈ BAD_INSTRUCTIONS
    · rw [instr_step_bad card c i rest hbad]
      exact ih hrest
    · obtain ⟨d, sw1, sw2, hcard, hne⟩ :=
        (probePasses_iff card c i).mp (h i (List.mem_cons_self i rest) hbad)
      rcases hs : get_succes sw1 sw2
      · rw [instr_step_succes card c i rest d sw1 sw2 hbad hcard hs]
        exact ih hrest
      · rw [instr_step_failed card c i rest d sw1 sw2 hbad hcard hs]
        exact ih hrest
      · exact absurd hs hne

lemma instruction_fuzzer_head_mem (card : Card) (c : Nat) :
    (⟨c, 0x00, 0x00, 0x00⟩ : Apdu) ∈ (instruction_fuzzer card c).trace := by
  unfold instruction_fuzzer
  rw [show (0xFF + 1 : Nat) = 255 + 1 from rfl, List.range_succ_eq_map 255]
  have h0 : (0 : Nat) ∉ BAD_INSTRUCTIONS := by decide
  rcases hcard : card ⟨c, 0x00, 0x00, 0x00⟩ with ⟨d, sw1, sw2⟩ | e
  · rcases hs : get_succes sw1 sw2
    · rw [instr_step_succes card c 0 _ d sw1 sw2 h0 hcard hs]
      exact List.mem_cons_self _ _
    · rw [instr_step_failed card c 0 _ d sw1 sw2 h0 hcard hs]
      exact List.mem_cons_self _ _
    · rw [instr_step_paramFail card c 0 _ d sw1 sw2 h0 hcard hs]
      exact List.mem_cons_self _ _
  · rw [instr_step_exn card c 0 _ e h0 hcard]
    exact List.mem_cons_self _ _

lemma instruction_fuzzer_loop_mem_iff (card : Card) (c : Nat) (l : List Nat) (cmd : Apdu) :
    cmd ∈ (instruction_fuzzer_loop card c l).yields ↔
      cmd ∈ (instruction_fuzzer_loop card c l).trace ∧
        probeOutcome card cmd = some Status.succes := by
  induction l with
  | nil => simp [instruction_fuzzer_loop]
  | cons i rest ih =>
    by_cases hbad : i ∈ BAD_INSTRUCTIONS
    · rw [instr_step_bad card c i rest hbad]
      exact ih
    · rcases hcard : card ⟨c, i, 0x00, 0x00⟩ with ⟨d, sw1, sw2⟩ | e
      · have hout : probeOutcome card ⟨c, i, 0x00, 0x00⟩ = some (get_succes sw1 sw2) := by
          simp [probeOutcome, hcard]
        rcases hs : get_succes sw1 sw2
        · rw [instr_step_succes card c i rest d sw1 sw2 hbad hcard hs]
          rw [hs] at hout
          simp only [List.mem_cons]
          constructor
          · rintro (rfl | hy)
            · exact ⟨Or.inl rfl, hout⟩
            · obtain ⟨ht, ho⟩ := ih.mp hy
              exact ⟨Or.inr ht, ho⟩
          · rintro ⟨rfl | ht, ho⟩
            · exact Or.inl rfl
            · exact Or.inr (ih.mpr ⟨ht, ho⟩)
        · rw [instr_step_failed card c i rest d sw1 sw2 hbad hcard hs]
          rw [hs] at hout
          simp only [List.mem_cons]
          constructor
          · intro hy
            obtain ⟨ht, ho⟩ := ih.mp hy
            exact ⟨Or.inr ht, ho⟩
          · rintro ⟨rfl | ht, ho⟩
            · rw [hout] at ho
              exact absurd ho (by simp)
            · exact ih.mpr ⟨ht, ho⟩
        · rw [instr_step_paramFail card c i rest d sw1 sw2 hbad hcard hs]
          rw [hs] at hout
          constructor
          · intro hy
            exact absurd hy (List.not_mem_nil cmd)
          · rintro ⟨hm, ho⟩
            rcases List.mem_singleton.mp hm with rfl
            rw [hout] at ho
            exact absurd ho (by simp)
      · have hout : probeOutcome card ⟨c, i, 0x00, 0x00⟩ = none := by
          simp [probeOutcome, hcard]
        rw [instr_step_exn card c i rest e hbad hcard]
        constructor
        · intro hy
          exact absurd hy (List.not_mem_nil cmd)
        · rintro ⟨hm, ho⟩
          rcases List.mem_singleton.mp hm with rfl
          rw [hout] at ho
          exact absurd ho (by simp)

lemma instruction_fuzzer_mem_iff (card : Card) (c : Nat) (cmd : Apdu) :
    cmd ∈ (instruction_fuzzer card c).yields ↔
      cmd ∈ (instruction_fuzzer card c).trace ∧
        probeOutcome card cmd = some Status.succes :=
  instruction_fuzzer_loop_mem_iff card c (List.range (0xFF + 1)) cmd

lemma instruction_fuzzer_trace_ins (card : Card) (c : Nat) :
    ∀ a ∈ (instruction_fuzzer card c).trace, a.ins ∉ BAD_INSTRUCTIONS := by
  intro a ha
  obtain ⟨j, hj, hjb, rfl⟩ :=
    instruction_fuzzer_loop_trace_shape card c (List.range (0xFF + 1)) a ha
  exact hjb

lemma classProbeSW_unsupported_not_succes (card : Card) (c : Nat)
    (h : classProbeSW card c ∈ UNSUPPORTED_RESP) :
    probeOutcome card ⟨c, 0x00, 0x00, 0x00⟩ ≠ some Status.succes := by
  intro ho
  unfold classProbeSW at h
  unfold probeOutcome at ho
  rcases hcard : card ⟨c, 0x00, 0x00, 0x00⟩ with ⟨d, sw1, sw2⟩ | e
  · rw [hcard] at h ho
    simp [UNSUPPORTED_RESP] at h
    obtain ⟨rfl, rfl⟩ := h
    simp at ho
    exact absurd ho (by decide)
  · rw [hcard] at ho
    simp at ho

lemma fuzz_loop_mem_iff (card : Card) (l : List Nat) (cmd : Apdu) :
    cmd ∈ (fuzz_loop card l).yields ↔
      cmd ∈ (fuzz_loop card l).trace ∧ probeOutcome card cmd = some Status.succes := by
  induction l with
  | nil => simp [fuzz_loop]
  | cons c rest ih =>
    by_cases hcls : classProbeSW card c ∈ UNSUPPORTED_RESP
    · rw [fuzz_step_skip card c rest hcls]
      have hns := classProbeSW_unsupported_not_succes card c hcls
      simp only [List.mem_cons]
      constructor
      · intro hy
        obtain ⟨ht, ho⟩ := ih.mp hy
        exact ⟨Or.inr ht, ho⟩
      · rintro ⟨rfl | ht, ho⟩
        · exact absurd ho hns
        · exact ih.mpr ⟨ht, ho⟩
    · have hmi := instruction_fuzzer_mem_iff card c cmd
      have hhead := instruction_fuzzer_head_mem card c
      rcases herr : (instruction_fuzzer card c).err with _ | e
      · rw [fuzz_step_ok card c rest hcls herr]
        simp only [List.mem_cons, List.mem_append]
        constructor
        · rintro (hy | hy)
          · obtain ⟨ht, ho⟩ := hmi.mp hy
            exact ⟨Or.inr (Or.inl ht), ho⟩
          · obtain ⟨ht, ho⟩ := ih.mp hy
            exact ⟨Or.inr (Or.inr ht), ho⟩
        · rintro ⟨rfl | ht | ht, ho⟩
          · exact Or.inl (hmi.mpr ⟨hhead, ho⟩)
          · exact Or.inl (hmi.mpr ⟨ht, ho⟩)
          · exact Or.inr (ih.mpr ⟨ht, ho⟩)
      · rw [fuzz_step_err card c rest e hcls herr]
        simp only [List.mem_cons]
        constructor
        · intro hy
          obtain ⟨ht, ho⟩ := hmi.mp hy
          exact ⟨Or.inr ht, ho⟩
        · rintro ⟨rfl | ht, ho⟩
          · exact hmi.mpr ⟨hhead, ho⟩
          · exact hmi.mpr ⟨ht, ho⟩

lemma fuzz_loop_trace_ins (card : Card) (l : List Nat) :
    ∀ a ∈ (fuzz_loop card l).trace, a.ins ∉ BAD_INSTRUCTIONS := by
  induction l with
  | nil => simp [fuzz_loop]
  | cons c rest ih =>
    by_cases hcls : classProbeSW card c ∈ UNSUPPORTED_RESP
    · rw [fuzz_step_skip card c rest hcls]
      intro a ha
      rcases List.mem_cons.mp ha with rfl | ha2
      · exact (by decide : (0x00 : Nat) ∉ BAD_INSTRUCTIONS)
      · exact ih a ha2
    · rcases herr : (instruction_fuzzer card c).err with _ | e
      · rw [fuzz_step_ok card c rest hcls herr]
        intro a ha
        rcases List.mem_cons.mp ha with rfl | ha2
        · exact (by decide : (0x00 : Nat) ∉ BAD_INSTRUCTIONS)
        · rcases List.mem_append.mp ha2 with ha3 | ha3
          · exact instruction_fuzzer_trace_ins card c a ha3
          · exact ih a ha3
      · rw [fuzz_step_err card c rest e hcls herr]
        intro a ha
        rcases List.mem_cons.mp ha with rfl | ha2
        · exact (by decide : (0x00 : Nat) ∉ BAD_INSTRUCTIONS)
        · exact instruction_fuzzer_trace_ins card c a ha2

lemma class_fuzzer_loop_yields_mem (card : Card) (l : List Nat) (c : Nat) :
    c ∈ (class_fuzzer_loop card l).yields ↔
      c ∈ l ∧ classProbeSW card c ∉ UNSUPPORTED_RESP := by
  induction l with
  | nil => simp [class_fuzzer_loop]
  | cons c2 rest ih =>
    by_cases h2 : classProbeSW card c2 ∈ UNSUPPORTED_RESP
    · rw [class_step_no card c2 rest h2]
      simp only [List.mem_cons]
      constructor
      · intro hy
        obtain ⟨hm, hp⟩ := ih.mp hy
        exact ⟨Or.inr hm, hp⟩
      · rintro ⟨rfl | hm, hp⟩
        · exact absurd h2 hp
        · exact ih.mpr ⟨hm, hp⟩
    · rw [class_step_yes card c2 rest h2]
      simp only [List.mem_cons]
      constructor
      · rintro (rfl | hy2)
        · exact ⟨Or.inl rfl, h2⟩
        · obtain ⟨hm, hp⟩ := ih.mp hy2
          exact ⟨Or.inr hm, hp⟩
      · rintro ⟨rfl | hm, hp⟩
        · exact Or.inl rfl
        · exact Or.inr (ih.mpr ⟨hm, hp⟩)

lemma class_fuzzer_loop_trace_err (card : Card) (l : List Nat) :
    (class_fuzzer_loop card l).trace = l.map (fun k => (⟨k, 0x00, 0x00, 0x00⟩ : Apdu)) ∧
      (class_fuzzer_loop card l).err = none := by
  induction l with
  | nil => simp [class_fuzzer_loop]
  | cons c rest ih =>
    by_cases h : classProbeSW card c ∈ UNSUPPORTED_RESP
    · rw [class_step_no card c rest h]
      simp [ih.1, ih.2]
    · rw [class_step_yes card c rest h]
      simp [ih.1, ih.2]

lemma allParamPairs_length : allParamPairs.length = 0x10000 := by
  have h : ∀ p1 : Nat, ((List.range (0xff + 1)).map fun p2 => (p1, p2)).length = 0xff + 1 := by
    intro p1
    simp
  simp [allParamPairs, Function.comp_def, h]

lemma instruction_fuzzer_loop_sw_congr (card1 card2 : Card)
    (h : ∀ a, swView (card1 a) = swView (card2 a)) (c : Nat) (l : List Nat) :
    instruction_fuzzer_loop card1 c l = instruction_fuzzer_loop card2 c l := by
  induction l with
  | nil => rfl
  | cons i rest ih =>
    by_cases hbad : i ∈ BAD_INSTRUCTIONS
    · rw [instr_step_bad card1 c i rest hbad, instr_step_bad card2 c i rest hbad, ih]
    · have hsw := h ⟨c, i, 0x00, 0x00⟩
      rcases h1 : card1 ⟨c, i, 0x00, 0x00⟩ with ⟨d1, s1, s2⟩ | e1 <;>
        rcases h2 : card2 ⟨c, i, 0x00, 0x00⟩ with ⟨d2, t1, t2⟩ | e2
      · rw [h1, h2] at hsw
        simp [swView] at hsw
        obtain ⟨rfl, rfl⟩ := hsw
        rcases hs : get_succes s1 s2
        · rw [instr_step_succes card1 c i rest d1 s1 s2 hbad h1 hs,
            instr_step_succes card2 c i rest d2 s1 s2 hbad h2 hs, ih]
        · rw [instr_step_failed card1 c i rest d1 s1 s2 hbad h1 hs,
            instr_step_failed card2 c i rest d2 s1 s2 hbad h2 hs, ih]
        · rw [instr_step_paramFail card1 c i rest d1 s1 s2 hbad h1 hs,
            instr_step_paramFail card2 c i rest d2 s1 s2 hbad h2 hs]
      · rw [h1, h2] at hsw
        simp [swView] at hsw
      · rw [h1, h2] at hsw
        simp [swView] at hsw
      · rw [h1, h2] at hsw
        simp [swView] at hsw
        subst hsw
        rw [instr_step_exn card1 c i rest _ hbad h1,
          instr_step_exn card2 c i rest _ hbad h2]

lemma instruction_fuzzer_sw_congr (card1 card2 : Card)
    (h : ∀ a, swView (card1 a) = swView (card2 a)) (c : Nat) :
    instruction_fuzzer card1 c = instruction_fuzzer card2 c :=
  instruction_fuzzer_loop_sw_congr card1 card2 h c (List.range (0xFF + 1))

lemma classProbeSW_sw_congr (card1 card2 : Card)
    (h : ∀ a, swView (card1 a) = swView (card2 a)) (c : Nat) :
    classProbeSW card1 c = classProbeSW card2 c := by
  have hsw := h ⟨c, 0x00, 0x00, 0x00⟩
  unfold classProbeSW
  rcases h1 : card1 ⟨c, 0x00, 0x00, 0x00⟩ with ⟨d1, s1, s2⟩ | e1 <;>
    rcases h2 : card2 ⟨c, 0x00, 0x00, 0x00⟩ with ⟨d2, t1, t2⟩ | e2
  · rw [h1, h2] at hsw
    simp [swView] at hsw
    obtain ⟨rfl, rfl⟩ := hsw
    rfl
  · rw [h1, h2] at hsw
    simp [swView] at hsw
  · rw [h1, h2] at hsw
    simp [swView] at hsw
  · rfl

lemma fuzz_loop_sw_congr (card1 card2 : Card)
    (h : ∀ a, swView (card1 a) = swView (card2 a)) (l : List Nat) :
    fuzz_loop card1 l = fuzz_loop card2 l := by
  induction l with
  | nil => rfl
  | cons c rest ih =>
    have hic := instruction_fuzzer_sw_congr card1 card2 h c
    have hcp := classProbeSW_sw_congr card1 card2 h c
    by_cases hcls : classProbeSW card1 c ∈ UNSUPPORTED_RESP
    · have hcls2 : classProbeSW card2 c ∈ UNSUPPORTED_RESP := hcp ▸ hcls
      rw [fuzz_step_skip card1 c rest hcls, fuzz_step_skip card2 c rest hcls2, ih]
    · have hcls2 : classProbeSW card2 c ∉ UNSUPPORTED_RESP := hcp ▸ hcls
      rcases herr : (instruction_fuzzer card1 c).err with _ | e
      · have herr2 : (instruction_fuzzer card2 c).err = none := hic ▸ herr
        rw [fuzz_step_ok card1 c rest hcls herr, fuzz_step_ok card2 c rest hcls2 herr2, ih, hic]
      · have herr2 : (instruction_fuzzer card2 c).err = some e := hic ▸ herr
        rw [fuzz_step_err card1 c rest e hcls herr, fuzz_step_err card2 c rest e hcls2 herr2, hic]

lemma instruction_fuzzer_abort (card : Card) (c i : Nat) (e : PyExc)
    (hi : i < 0xFF + 1)
    (hbad : i ∉ BAD_INSTRUCTIONS)
    (hraise : card ⟨c, i, 0x00, 0x00⟩ = TResult.exn e)
    (hpre : ∀ j, j < i → j ∉ BAD_INSTRUCTIONS → probePasses card c j = true) :
    (instruction_fuzzer card c).err = some (PyErr.transmit e) ∧
      ∀ k, i < k → (⟨c, k, 0x00, 0x00⟩ : Apdu) ∉ (instruction_fuzzer card c).trace := by
  have htake : List.take (i + 1) (List.range (0xFF + 1)) = List.range (i + 1) := by
    rw [List.take_range]
    congr 1
    omega
  have hdec : List.range (0xFF + 1) =
      (List.range i ++ [i]) ++ List.drop (i + 1) (List.range (0xFF + 1)) := by
    conv_lhs => rw [← List.take_append_drop (i + 1) (List.range (0xFF + 1))]
    rw [htake, List.range_succ]
  have hclean : (instruction_fuzzer_loop card c (List.range i)).err = none := by
    apply instruction_fuzzer_loop_err_none
    intro j hj
    exact hpre j (List.mem_range.mp hj)
  have hstep : instruction_fuzzer_loop card c [i] =
      ⟨[⟨c, i, 0x00, 0x00⟩], [], some (PyErr.transmit e)⟩ :=
    instr_step_exn card c i [] e hbad hraise
  have hmid : instruction_fuzzer_loop card c (List.range i ++ [i]) =
      ⟨(instruction_fuzzer_loop card c (List.range i)).trace ++ [⟨c, i, 0x00, 0x00⟩],
        (instruction_fuzzer_loop card c (List.range i)).yields ++ [],
        some (PyErr.transmit e)⟩ := by
    rw [instruction_fuzzer_loop_append card c [i] (List.range i), if_pos hclean, hstep]
  have hfull : instruction_fuzzer card c =
      instruction_fuzzer_loop card c (List.range i ++ [i]) := by
    unfold instruction_fuzzer
    rw [hdec, instruction_fuzzer_loop_append card c _ (List.range i ++ [i]), hmid]
    simp
  constructor
  · rw [hfull, hmid]
  · intro k hk hmem
    rw [hfull, hmid] at hmem
    rcases List.mem_append.mp hmem with hm1 | hm2
    · obtain ⟨j, hj, hjb, hjeq⟩ :=
        instruction_fuzzer_loop_trace_shape card c (List.range i) _ hm1
      have hkj : k = j := by
        have := congrArg Apdu.ins hjeq
        simpa using this
      have hji := List.mem_range.mp hj
      omega
    · have hki : k = i := by
        have h := List.mem_singleton.mp hm2
        have := congrArg Apdu.ins h
        simpa using this
      omega

/-! ### Claim theorems -/

/-- C1: on the Scenario B card the probe for instruction 0x10 of class 0x80
is classified `PARAM_FAIL`, but instead of delegating to the parameter sweep
and yielding (0x80, 0x10, 0x01, 0x02), `fuzz()` crashes with the
`AttributeError` raised by the `self.param_fuzzer` lookup, having yielded
nothing. -/
theorem C1_scenarioB_escalation_crashes :
    probeOutcome cardScenarioB ⟨0x80, 0x10, 0x00, 0x00⟩ = some Status.paramFail ∧
    (fuzz cardScenarioB).yields = [] ∧
    (fuzz cardScenarioB).err = some PyErr.attributeError :=
  ⟨rfl, rfl, rfl⟩

/-- C2: `__get_succes` follows the three-rule first-match order: `SUCCES` iff
sw1 is in the success list and the pair is in neither the bad-parameter nor
the hard-failure pair list; otherwise `PARAM_FAIL` iff the pair is a
bad-parameter pair; otherwise `FAILED`; and the outcome is always exactly one
of the three (it is a total function, hence deterministic). -/
theorem C2_classify_first_match_order : ∀ sw1 sw2 : Nat,
    (get_succes sw1 sw2 = Status.succes ↔
      sw1 ∈ SUCCESS_LIST_RESP ∧ (sw1, sw2) ∉ SUCCESS_BAD_PARAM_RESP ∧
        (sw1, sw2) ∉ SUCCESS_FAIL_RESP) ∧
    (get_succes sw1 sw2 ≠ Status.succes →
      (get_succes sw1 sw2 = Status.paramFail ↔ (sw1, sw2) ∈ SUCCESS_BAD_PARAM_RESP)) ∧
    (get_succes sw1 sw2 = Status.succes ∨ get_succes sw1 sw2 = Status.paramFail ∨
      get_succes sw1 sw2 = Status.failed) := by
  intro sw1 sw2
  unfold get_succes
  by_cases h1 : sw1 ∈ SUCCESS_LIST_RESP ∧ (sw1, sw2) ∉ SUCCESS_FAIL_RESP
      ∧ (sw1, sw2) ∉ SUCCESS_BAD_PARAM_RESP
  · rw [if_pos h1]
    refine ⟨⟨fun _ => ⟨h1.1, h1.2.2, h1.2.1⟩, fun _ => rfl⟩, fun h => absurd rfl h, Or.inl rfl⟩
  · rw [if_neg h1]
    by_cases h2 : (sw1, sw2) ∈ SUCCESS_BAD_PARAM_RESP
    · rw [if_pos h2]
      refine ⟨⟨fun h => absurd h (by decide), ?_⟩, fun _ => ⟨fun _ => h2, fun _ => rfl⟩,
        Or.inr (Or.inl rfl)⟩
      rintro ⟨ha, hb, hc⟩
      exact absurd h2 hb
    · rw [if_neg h2]
      refine ⟨⟨fun h => absurd h (by decide), ?_⟩,
        fun _ => ⟨fun h => absurd h (by decide), fun h => absurd h h2⟩,
        Or.inr (Or.inr rfl)⟩
      rintro ⟨ha, hb, hc⟩
      exact absurd ⟨ha, hc, hb⟩ h1

/-- C3 counterexample to the claim as stated: on the Scenario D card the
probe for instruction 0x05 of class 0x00 raises, and the instruction sweep
does NOT continue with instruction 0x06 — the exception escapes the
enumerator and ends it. -/
theorem C3_counterexample_raise_aborts_sweep :
    (instruction_fuzzer cardScenarioD 0x00).err = some (PyErr.transmit PyExc.otherException) ∧
    (⟨0x00, 0x05, 0x00, 0x00⟩ : Apdu) ∈ (instruction_fuzzer cardScenarioD 0x00).trace ∧
    (⟨0x00, 0x06, 0x00, 0x00⟩ : Apdu) ∉ (instruction_fuzzer cardScenarioD 0x00).trace :=
  ⟨rfl, by decide, by decide⟩

/-- C3 (amended): a transmission error in the instruction sweep is not
caught: when the probe for instruction `i` raises (and every earlier
non-blacklisted probe returned normally without being classified
`PARAM_FAIL`), the exception propagates out of `_instruction_fuzzer` and no
later instruction is probed. -/
theorem C3_instruction_error_propagates (card : Card) (c i : Nat) (e : PyExc)
    (hi : i < 0xFF + 1)
    (hbad : i ∉ BAD_INSTRUCTIONS)
    (hraise : card ⟨c, i, 0x00, 0x00⟩ = TResult.exn e)
    (hpre : ∀ j, j < i → j ∉ BAD_INSTRUCTIONS → probePasses card c j = true) :
    (instruction_fuzzer card c).err = some (PyErr.transmit e) ∧
      ∀ k, i < k → (⟨c, k, 0x00, 0x00⟩ : Apdu) ∉ (instruction_fuzzer card c).trace :=
  instruction_fuzzer_abort card c i e hi hbad hraise hpre

/-- C3 witness: the amended theorem applied to the Scenario D card at
instruction 0x05 of class 0x00. -/
theorem C3_instruction_error_propagates_witness :
    ((0x05 : Nat) < 0xFF + 1 ∧ (0x05 : Nat) ∉ BAD_INSTRUCTIONS ∧
      cardScenarioD ⟨0x00, 0x05, 0x00, 0x00⟩ = TResult.exn PyExc.otherException ∧
      (∀ j, j < 0x05 → j ∉ BAD_INSTRUCTIONS → probePasses cardScenarioD 0x00 j = true)) ∧
    ((instruction_fuzzer cardScenarioD 0x00).err =
        some (PyErr.transmit PyExc.otherException) ∧
      ∀ k, 0x05 < k →
        (⟨0x00, k, 0x00, 0x00⟩ : Apdu) ∉ (instruction_fuzzer cardScenarioD 0x00).trace) :=
  ⟨⟨by decide, by decide, by decide, by decide⟩,
    C3_instruction_error_propagates cardScenarioD 0x00 0x05 PyExc.otherException
      (by decide) (by decide) (by decide) (by decide)⟩

/-- C4: no command transmitted during a `fuzz()` run carries a blacklisted
instruction byte: the class sweep always sends instruction 0x00 and the
instruction sweep skips `BAD_INSTRUCTIONS` before transmitting. -/
theorem C4_no_blacklisted_instruction_transmitted (card : Card) (cmd : Apdu)
    (h : cmd ∈ (fuzz card).trace) :
    cmd.ins ∉ BAD_INSTRUCTIONS :=
  fuzz_loop_trace_ins card (List.range (0xFF + 1)) cmd h

/-- C4 witness: the theorem applied to the all-unsupported card and the
class probe for class 0x00. -/
theorem C4_no_blacklisted_instruction_transmitted_witness :
    (⟨0x00, 0x00, 0x00, 0x00⟩ : Apdu) ∈ (fuzz cardAllUnsupported).trace ∧
      (⟨0x00, 0x00, 0x00, 0x00⟩ : Apdu).ins ∉ BAD_INSTRUCTIONS :=
  ⟨by decide,
    C4_no_blacklisted_instruction_transmitted cardAllUnsupported _ (by decide)⟩

/-- C5: `fuzz()` yields a command iff that command was transmitted during the
run and its probe was classified `SUCCES`; in particular no command whose
probe was classified `FAILED` (or `PARAM_FAIL`, or whose probe raised) ever
appears in the output. -/
theorem C5_yield_iff_success (card : Card) (cmd : Apdu) :
    cmd ∈ (fuzz card).yields ↔
      cmd ∈ (fuzz card).trace ∧ probeOutcome card cmd = some Status.succes :=
  fuzz_loop_mem_iff card (List.range (0xFF + 1)) cmd

/-- C6: the class sweep yields `c` iff `c` is a byte (0..255) whose probe's
status-word pair — defaulting to the unsupported marker when the transmission
raises — differs from (0x6E, 0x00); and the sweep always transmits all 256
class probes and never ends in an error. -/
theorem C6_class_yield_iff_not_unsupported (card : Card) (c : Nat) :
    (c ∈ (class_fuzzer card).yields ↔
      c < 0xFF + 1 ∧ classProbeSW card c ≠ (0x6E, 0x00)) ∧
    (class_fuzzer card).trace =
      (List.range (0xFF + 1)).map (fun k => (⟨k, 0x00, 0x00, 0x00⟩ : Apdu)) ∧
    (class_fuzzer card).err = none := by
  refine ⟨?_, (class_fuzzer_loop_trace_err card (List.range (0xFF + 1))).1,
    (class_fuzzer_loop_trace_err card (List.range (0xFF + 1))).2⟩
  rw [show class_fuzzer card = class_fuzzer_loop card (List.range (0xFF + 1)) from rfl,
    class_fuzzer_loop_yields_mem card (List.range (0xFF + 1)) c]
  constructor
  · rintro ⟨hm, hp⟩
    refine ⟨List.mem_range.mp hm, ?_⟩
    intro heq
    apply hp
    rw [heq]
    simp [UNSUPPORTED_RESP]
  · rintro ⟨hlt, hne⟩
    refine ⟨List.mem_range.mpr hlt, ?_⟩
    intro hmem
    apply hne
    simpa [UNSUPPORTED_RESP] using hmem

/-- C7: the parameter sweep does not offer all 65,536 (p1, p2) pairs before
returning: on a card whose every response is (0x90, 0x00) the very first pair
is classified `SUCCES`, the yield raises `NameError` (undefined `ins`), and
the sweep ends after a single transmitted probe out of the 65,536 pairs the
nested loops would enumerate. -/
theorem C7_param_sweep_aborts_on_first_success :
    (param_fuzzer cardAllSucces 0x80 0x10).trace = [⟨0x80, 0x10, 0x00, 0x00⟩] ∧
    (param_fuzzer cardAllSucces 0x80 0x10).yields = [] ∧
    (param_fuzzer cardAllSucces 0x80 0x10).err = some PyErr.nameError ∧
    allParamPairs.length = 0x10000 :=
  ⟨rfl, rfl, rfl, allParamPairs_length⟩

/-- C8: when no card is presented within the configured window the
constructor propagates the timeout error and nothing is ever transmitted —
enumeration never starts. -/
theorem C8_connection_timeout_before_any_probe
    (reader : Nat → Except ConnectError Card) (timeout : Nat)
    (h : reader timeout = Except.error ConnectError.connectionTimeout) :
    mainRun reader timeout = ([], some ConnectError.connectionTimeout) := by
  unfold mainRun fuzzerInit get_card
  rw [h]

/-- C8 witness: the theorem applied to a reader that never detects a card,
at the default timeout of 30. -/
theorem C8_connection_timeout_before_any_probe_witness :
    readerNoCard DEFAULT_TIMEOUT = Except.error ConnectError.connectionTimeout ∧
      mainRun readerNoCard DEFAULT_TIMEOUT = ([], some ConnectError.connectionTimeout) :=
  ⟨rfl, C8_connection_timeout_before_any_probe readerNoCard DEFAULT_TIMEOUT rfl⟩

/-- C9: concrete content of the classification: every sw1 in
{0x90, 0x61, 0x67, 0x6c} is `SUCCES` for every sw2; sw1 = 0x6a is `SUCCES`
except at sw2 = 0x86 (`PARAM_FAIL`) and sw2 = 0x81 (`FAILED`); every sw1
outside the success list is `FAILED`. -/
theorem C9_table_contents :
    (∀ sw1 sw2 : Nat, (sw1 = 0x90 ∨ sw1 = 0x61 ∨ sw1 = 0x67 ∨ sw1 = 0x6c) →
      get_succes sw1 sw2 = Status.succes) ∧
    (∀ sw2 : Nat, sw2 ≠ 0x81 → sw2 ≠ 0x86 → get_succes 0x6a sw2 = Status.succes) ∧
    get_succes 0x6a 0x86 = Status.paramFail ∧
    get_succes 0x6a 0x81 = Status.failed ∧
    (∀ sw1 sw2 : Nat, sw1 ∉ SUCCESS_LIST_RESP → get_succes sw1 sw2 = Status.failed) := by
  refine ⟨?_, ?_, by decide, by decide, ?_⟩
  · rintro sw1 sw2 (rfl | rfl | rfl | rfl) <;>
      simp [get_succes, SUCCESS_LIST_RESP, SUCCESS_FAIL_RESP, SUCCESS_BAD_PARAM_RESP]
  · intro sw2 h81 h86
    simp [get_succes, SUCCESS_LIST_RESP, SUCCESS_FAIL_RESP, SUCCESS_BAD_PARAM_RESP, h81, h86]
  · intro sw1 sw2 hmem
    have h1 : ¬(sw1 ∈ SUCCESS_LIST_RESP ∧ (sw1, sw2) ∉ SUCCESS_FAIL_RESP
        ∧ (sw1, sw2) ∉ SUCCESS_BAD_PARAM_RESP) := fun h => hmem h.1
    have h2 : (sw1, sw2) ∉ SUCCESS_BAD_PARAM_RESP := by
      intro h
      apply hmem
      simp [SUCCESS_BAD_PARAM_RESP] at h
      simp [SUCCESS_LIST_RESP, h.1]
    unfold get_succes
    rw [if_neg h1, if_neg h2]

/-- C10: the output of `fuzz()` does not depend on response data bytes: two
transceivers agreeing on the status-word view of every command (raising the
same exceptions, returning the same (sw1, sw2), with arbitrarily different
data fields) make `fuzz()` yield the same sequence of commands. -/
theorem C10_output_independent_of_response_data (card1 card2 : Card)
    (h : ∀ a, swView (card1 a) = swView (card2 a)) :
    (fuzz card1).yields = (fuzz card2).yields := by
  unfold fuzz
  rw [fuzz_loop_sw_congr card1 card2 h]

/-- C10 witness: the theorem applied to two cards answering the unsupported
marker, one with empty data and one with data (0x01, 0x02). -/
theorem C10_output_independent_of_response_data_witness :
    (∀ a, swView (cardAllUnsupported a) = swView (cardAllUnsupportedData a)) ∧
      (fuzz cardAllUnsupported).yields = (fuzz cardAllUnsupportedData).yields :=
  ⟨fun _ => rfl,
    C10_output_independent_of_response_data cardAllUnsupported cardAllUnsupportedData
      (fun _ => rfl)⟩
